import Mathlib

/-!
# OpenGL-files: the three `main.cpp` programs as call traces

The repository holds three near-identical programs (`TriangleShader`,
`DrawingTriangle`, `shaders_interpolation`).  Each `main` is a straight line of
calls into GLFW / GLAD / OpenGL followed by one `while` loop.  The programs
compute nothing themselves: what they do *is* the sequence of library calls
they issue, and which calls are issued depends only on the values the
libraries hand back (window pointer, loader result, status flags, the
should-close flag, the key state).

The embedding therefore is:

* `Env`   : every value a library call returns to the program;
* `Call`  : one constructor per library entry point used in the sources,
            carrying the arguments the source passes (and the value returned
            where the program branches on it);
* `main`  : the list of calls and the exit status, by following the source
            line by line.  The render loop is unbounded in the source, so it is
            run with a fuel bound; running out of fuel is reported as
            `exitCode = none`.

C `int` results are `Int` and are tested the way C tests them (`!x` is
`x = 0`).  `float` literals in the sources are dyadic rationals, and the
programs perform no floating-point arithmetic on them, so they are kept as
exact rationals.
-/

namespace OpenGLFiles

/-! ## Source variants and library constants -/

/-- The three programs of the repository, named after their directories. -/
inductive Variant where
  | TriangleShader
  | DrawingTriangle
  | shaders_interpolation
  deriving DecidableEq, Repr

/-- Symbolic OpenGL enumerants used by the sources. -/
inductive GLenum where
  | GL_VERTEX_SHADER
  | GL_FRAGMENT_SHADER
  | GL_COMPILE_STATUS
  | GL_LINK_STATUS
  | GL_ARRAY_BUFFER
  | GL_ELEMENT_ARRAY_BUFFER
  | GL_STATIC_DRAW
  | GL_FLOAT
  | GL_UNSIGNED_INT
  | GL_TRIANGLES
  | GL_COLOR_BUFFER_BIT
  deriving DecidableEq, Repr

/-- The null pointer. -/
def NULL : Nat := 0

/-- Header constant of GLFW (`glfw3.h`). -/
def GLFW_CONTEXT_VERSION_MAJOR : Int := 0x00022002
/-- Header constant of GLFW (`glfw3.h`). -/
def GLFW_CONTEXT_VERSION_MINOR : Int := 0x00022003
/-- Header constant of GLFW (`glfw3.h`). -/
def GLFW_OPENGL_PROFILE : Int := 0x00022008
/-- Header constant of GLFW (`glfw3.h`). -/
def GLFW_OPENGL_CORE_PROFILE : Int := 0x00032001
/-- Header constant of GLFW (`glfw3.h`). -/
def GLFW_KEY_ESCAPE : Int := 256
/-- Header constant of GLFW (`glfw3.h`). -/
def GLFW_PRESS : Int := 1
/-- Header constant of GLFW (`glfw3.h`). -/
def GLFW_RELEASE : Int := 0

/-- Size of a C `float` in bytes (`GLfloat` is a 32-bit type). -/
def sizeof_float : Nat := 4
/-- Size of a C `unsigned int` in bytes (`GLuint` is a 32-bit type). -/
def sizeof_unsigned_int : Nat := 4

/-- Settings (declared in every variant, lines 13-14). -/
def SCR_WIDTH : Nat := 800
/-- Settings (declared in every variant, lines 13-14). -/
def SCR_HEIGHT : Nat := 600

/-! ## Library calls -/

/-- The client-side array handed to `glBufferData`. -/
inductive BufferData where
  | floats (xs : List ℚ)
  | uints (xs : List Nat)
  deriving DecidableEq, Repr

/-- One library call issued by a program.  `cout` is a line written to
`std::cout` (text before `std::endl`). -/
inductive Call where
  | glfwInit
  | glfwWindowHint (hint value : Int)
  | glfwCreateWindow (width height : Nat) (title : String) (monitor share result : Nat)
  | cout (text : String)
  | glfwTerminate
  | glfwMakeContextCurrent (window : Nat)
  | glfwSetFramebufferSizeCallback (window : Nat)
  | gladLoadGLLoader (result : Int)
  | glCreateShader (kind : GLenum) (result : Nat)
  | glShaderSource (shader count : Nat) (source : String) (length : Nat)
  | glCompileShader (shader : Nat)
  | glGetShaderiv (shader : Nat) (pname : GLenum) (result : Int)
  | glGetShaderInfoLog (shader maxLength length : Nat) (infoLog : String)
  | glCreateProgram (result : Nat)
  | glAttachShader (program shader : Nat)
  | glLinkProgram (program : Nat)
  | glGetProgramiv (program : Nat) (pname : GLenum) (result : Int)
  | glGetProgramInfoLog (program maxLength length : Nat) (infoLog : String)
  | glDeleteShader (shader : Nat)
  | glGenVertexArrays (n result : Nat)
  | glGenBuffers (n result : Nat)
  | glBindVertexArray (array : Nat)
  | glBindBuffer (target : GLenum) (buffer : Nat)
  | glBufferData (target : GLenum) (size : Nat) (data : BufferData) (usage : GLenum)
  | glVertexAttribPointer (index size : Nat) (kind : GLenum) (normalized : Bool)
      (stride pointer : Nat)
  | glEnableVertexAttribArray (index : Nat)
  | glfwWindowShouldClose (window : Nat) (result : Int)
  | glfwGetKey (window : Nat) (key result : Int)
  | glfwSetWindowShouldClose (window : Nat) (value : Bool)
  | glClearColor (red green blue alpha : ℚ)
  | glClear (mask : GLenum)
  | glUseProgram (program : Nat)
  | glDrawArrays (mode : GLenum) (first count : Nat)
  | glDrawElements (mode : GLenum) (count : Nat) (kind : GLenum) (indices : Nat)
  | glfwSwapBuffers (window : Nat)
  | glfwPollEvents
  | glDeleteVertexArrays (n array : Nat)
  | glDeleteBuffers (n buffer : Nat)
  | glDeleteProgram (program : Nat)
  | glViewport (x y width height : Int)
  deriving DecidableEq, Repr

/-- Everything the libraries return to the program during one run.  The
render loop asks `glfwWindowShouldClose` once at the head of each iteration
and `glfwGetKey` once inside it; the answers are indexed by the iteration
number, starting at 0. -/
structure Env where
  window : Nat
  gladLoadGLLoader : Int
  vertexShader : Nat
  vertexCompileStatus : Int
  vertexInfoLog : String
  fragmentShader : Nat
  fragmentCompileStatus : Int
  fragmentInfoLog : String
  shaderProgram : Nat
  linkStatus : Int
  programInfoLog : String
  VAO : Nat
  VBO : Nat
  EBO : Nat
  glfwWindowShouldClose : Nat → Int
  glfwGetKey : Nat → Int

/-- What a run produced: the calls issued so far and the value returned by
`main` (`none` while the render loop is still running). -/
structure Run where
  calls : List Call
  exitCode : Option Int

/-! ## Shader sources -/

/-- Vertex shader text (`vertexShaderSource` of each variant). -/
def vertexShaderSource : Variant → String
  | .shaders_interpolation =>
      "\n\t#version 330 core\n\tlayout (location = 0) in vec3 aPos;\n" ++
      "\tlayout (location = 1) in vec3 aColor;\n\tout vec3 ourColor;\n" ++
      "\tvoid main()\n\t\x7b\n\t\tgl_Position = vec4(aPos, 1.0);\n" ++
      "\t\tourColor = aColor;\n\t\x7d\n\t"
  | _ =>
      "#version 330 core\nlayout (location = 0) in vec3 aPos;\n" ++
      "void main()\n\x7b\n gl_Position = vec4(aPos.x, aPos.y, aPos.z, 1.0);\n\x7d"

/-- Fragment shader text (`fragmentShaderSource` of each variant). -/
def fragmentShaderSource : Variant → String
  | .shaders_interpolation =>
      "\n\t#version 330 core\n\tout vec4 FragColor;\n\tin vec3 ourColor;\n" ++
      "\tvoid main()\n\t\x7b\n\t\tFragColor = vec4(ourColor, 1.0f);\n\t\x7d\n\t"
  | _ =>
      "#version 330 core\nout vec4 FragColor;\nvoid main()\n\x7b\n" ++
      "   FragColor = vec4(1.0f, 0.0f, 0.0f, 1.0f);\n\x7d\n"

/-! ## Geometry tables -/

/-- The `float vertices[]` array of each variant. -/
def vertices : Variant → List ℚ
  | .shaders_interpolation =>
      [ 1/2, -1/2, 0,   1, 0, 0,
        -1/2, -1/2, 0,  0, 1, 0,
        0, 1/2, 0,      0, 0, 1 ]
  | _ =>
      [ 1/2, 1/2, 0,
        1/2, -1/2, 0,
        -1/2, -1/2, 0,
        -1/2, 1/2, 0 ]

/-- The `unsigned int indices[]` array (declared in `DrawingTriangle` only). -/
def indices : List Nat := [0, 1, 3, 1, 2, 3]

/-- Value of `sizeof(vertices)`. -/
def sizeof_vertices (v : Variant) : Nat := (vertices v).length * sizeof_float

/-- Value of `sizeof(indices)`. -/
def sizeof_indices : Nat := indices.length * sizeof_unsigned_int

/-- Arguments of `glClearColor` in the render loop of each variant. -/
def clearColor : Variant → ℚ × ℚ × ℚ × ℚ
  | .shaders_interpolation => (0, 0, 0, 0)
  | _ => (0, 0, 1, 0)

/-! ## The program, block by block -/

/-- Lines from `glfwInit()` to the call of `glfwCreateWindow`. -/
def createWindow (env : Env) : List Call :=
  [ .glfwInit,
    .glfwWindowHint GLFW_CONTEXT_VERSION_MAJOR 3,
    .glfwWindowHint GLFW_CONTEXT_VERSION_MINOR 3,
    .glfwWindowHint GLFW_OPENGL_PROFILE GLFW_OPENGL_CORE_PROFILE,
    .glfwCreateWindow 800 600 "Graphics Library that is Open" NULL NULL env.window ]

/-- Lines from `glfwMakeContextCurrent` to the call of `gladLoadGLLoader`. -/
def loadGL (env : Env) : List Call :=
  [ .glfwMakeContextCurrent env.window,
    .glfwSetFramebufferSizeCallback env.window,
    .gladLoadGLLoader env.gladLoadGLLoader ]

/-- "Building the vertex shader" and its error check. -/
def buildVertexShader (v : Variant) (env : Env) : List Call :=
  [ .glCreateShader .GL_VERTEX_SHADER env.vertexShader,
    .glShaderSource env.vertexShader 1 (vertexShaderSource v) NULL,
    .glCompileShader env.vertexShader,
    .glGetShaderiv env.vertexShader .GL_COMPILE_STATUS env.vertexCompileStatus ] ++
  (if env.vertexCompileStatus = 0 then
    [ .glGetShaderInfoLog env.vertexShader 512 NULL env.vertexInfoLog,
      .cout ("ERROR::SHADER::VERTEX::COMPILATION_FAILED\n" ++ env.vertexInfoLog) ]
   else [])

/-- "Building the fragment shader" and its error check. -/
def buildFragmentShader (v : Variant) (env : Env) : List Call :=
  [ .glCreateShader .GL_FRAGMENT_SHADER env.fragmentShader,
    .glShaderSource env.fragmentShader 1 (fragmentShaderSource v) NULL,
    .glCompileShader env.fragmentShader,
    .glGetShaderiv env.fragmentShader .GL_COMPILE_STATUS env.fragmentCompileStatus ] ++
  (if env.fragmentCompileStatus = 0 then
    [ .glGetShaderInfoLog env.fragmentShader 512 NULL env.fragmentInfoLog,
      .cout ("ERROR::SHADER::VERTEX::COMPILATION_FAILED\n" ++ env.fragmentInfoLog) ]
   else [])

/-- "Creating the final shader program" up to the link-status check. -/
def linkProgram (env : Env) : List Call :=
  [ .glCreateProgram env.shaderProgram,
    .glAttachShader env.shaderProgram env.vertexShader,
    .glAttachShader env.shaderProgram env.fragmentShader,
    .glLinkProgram env.shaderProgram,
    .glGetProgramiv env.shaderProgram .GL_LINK_STATUS env.linkStatus ] ++
  (if env.linkStatus = 0 then
    [ .glGetProgramInfoLog env.shaderProgram 512 NULL env.programInfoLog,
      .cout ("ERROR::SHADER::PROGRAM::LINKING_FAILED\n" ++ env.programInfoLog) ]
   else [])

/-- The two `glDeleteShader` lines that follow the link check. -/
def deleteShaders (env : Env) : List Call :=
  [ .glDeleteShader env.vertexShader,
    .glDeleteShader env.fragmentShader ]

/-- "Setting up vertex data, vertex buffers, element buffers, and vertex
attributes": from `glGenVertexArrays` to the last `glEnableVertexAttribArray`. -/
def uploadGeometry (v : Variant) (env : Env) : List Call :=
  match v with
  | .TriangleShader =>
      [ .glGenVertexArrays 1 env.VAO,
        .glGenBuffers 1 env.VBO,
        .glBindVertexArray env.VAO,
        .glBindBuffer .GL_ARRAY_BUFFER env.VBO,
        .glBufferData .GL_ARRAY_BUFFER (sizeof_vertices v) (.floats (vertices v))
          .GL_STATIC_DRAW,
        .glVertexAttribPointer 0 3 .GL_FLOAT false (3 * sizeof_float) 0,
        .glEnableVertexAttribArray 0 ]
  | .DrawingTriangle =>
      [ .glGenVertexArrays 1 env.VAO,
        .glGenBuffers 1 env.VBO,
        .glGenBuffers 1 env.EBO,
        .glBindVertexArray env.VAO,
        .glBindBuffer .GL_ARRAY_BUFFER env.VBO,
        .glBufferData .GL_ARRAY_BUFFER (sizeof_vertices v) (.floats (vertices v))
          .GL_STATIC_DRAW,
        .glBindBuffer .GL_ELEMENT_ARRAY_BUFFER env.EBO,
        .glBufferData .GL_ELEMENT_ARRAY_BUFFER sizeof_indices (.uints indices)
          .GL_STATIC_DRAW,
        .glVertexAttribPointer 0 3 .GL_FLOAT false (3 * sizeof_float) 0,
        .glEnableVertexAttribArray 0 ]
  | .shaders_interpolation =>
      [ .glGenVertexArrays 1 env.VAO,
        .glGenBuffers 1 env.VBO,
        .glBindVertexArray env.VAO,
        .glBindBuffer .GL_ARRAY_BUFFER env.VBO,
        .glBufferData .GL_ARRAY_BUFFER (sizeof_vertices v) (.floats (vertices v))
          .GL_STATIC_DRAW,
        .glVertexAttribPointer 0 3 .GL_FLOAT false (6 * sizeof_float) 0,
        .glEnableVertexAttribArray 0,
        .glVertexAttribPointer 1 3 .GL_FLOAT false (6 * sizeof_float) (3 * sizeof_float),
        .glEnableVertexAttribArray 1 ]

/-- The "Input" part of the loop body: the Escape test. -/
def processInput (env : Env) (k : Nat) : List Call :=
  .glfwGetKey env.window GLFW_KEY_ESCAPE (env.glfwGetKey k) ::
  (if env.glfwGetKey k = GLFW_PRESS then
    [ .glfwSetWindowShouldClose env.window true ]
   else [])

/-- The "Render" and "Drawing" parts of the loop body and the buffer swap /
event poll that end it. -/
def renderAndPresent (v : Variant) (env : Env) : List Call :=
  [ .glClearColor (clearColor v).1 (clearColor v).2.1 (clearColor v).2.2.1
      (clearColor v).2.2.2,
    .glClear .GL_COLOR_BUFFER_BIT,
    .glUseProgram env.shaderProgram,
    .glDrawArrays .GL_TRIANGLES 0 3,
    .glfwSwapBuffers env.window,
    .glfwPollEvents ]

/-- Body of the `while` loop, iteration `k`. -/
def loopBody (v : Variant) (env : Env) (k : Nat) : List Call :=
  processInput env k ++ renderAndPresent v env

/-- The render loop `while (!glfwWindowShouldClose(window)) { ... }`, started
at iteration `k` and allowed `fuel` evaluations of the loop condition.  The
boolean tells whether the loop was left (`true`) or the fuel ran out. -/
def renderLoop (v : Variant) (env : Env) : Nat → Nat → List Call × Bool
  | 0, _ => ([], false)
  | fuel + 1, k =>
      if env.glfwWindowShouldClose k = 0 then
        let r := renderLoop v env fuel (k + 1)
        (.glfwWindowShouldClose env.window (env.glfwWindowShouldClose k) ::
            (loopBody v env k ++ r.1), r.2)
      else
        ([ .glfwWindowShouldClose env.window (env.glfwWindowShouldClose k) ], true)

/-- The lines after the loop, up to `glfwTerminate()`. -/
def cleanup (v : Variant) (env : Env) : List Call :=
  match v with
  | .DrawingTriangle =>
      [ .glDeleteVertexArrays 1 env.VAO,
        .glDeleteBuffers 1 env.VBO,
        .glDeleteBuffers 1 env.EBO,
        .glDeleteProgram env.shaderProgram,
        .glfwTerminate ]
  | _ =>
      [ .glDeleteVertexArrays 1 env.VAO,
        .glDeleteBuffers 1 env.VBO,
        .glDeleteProgram env.shaderProgram,
        .glfwTerminate ]

/-- Everything between the successful `gladLoadGLLoader` and the loop. -/
def startup (v : Variant) (env : Env) : List Call :=
  buildVertexShader v env ++ buildFragmentShader v env ++ linkProgram env ++
    deleteShaders env ++ uploadGeometry v env

/-- `int main()` of variant `v`. -/
def main (v : Variant) (env : Env) (fuel : Nat) : Run :=
  if env.window = NULL then
    ⟨createWindow env ++ [ .cout "Failed to create GLFW window", .glfwTerminate ], some (-1)⟩
  else if env.gladLoadGLLoader = 0 then
    ⟨createWindow env ++ loadGL env ++ [ .cout "Failed to initialize GLAD" ], some (-1)⟩
  else
    let r := renderLoop v env fuel 0
    if r.2 then
      ⟨createWindow env ++ loadGL env ++ startup v env ++ r.1 ++ cleanup v env, some 0⟩
    else
      ⟨createWindow env ++ loadGL env ++ startup v env ++ r.1, none⟩

/-- The resize callback `framebuffer_size_callback(window, width, height)`. -/
def framebuffer_size_callback (_window : Nat) (width height : Int) : List Call :=
  [ .glViewport 0 0 width height ]


/-! ## Reading a trace -/

/-- A clear of the colour buffer. -/
def isClear : Call → Bool
  | .glClear _ => true
  | _ => false

/-- A draw call (direct or indexed). -/
def isDraw : Call → Bool
  | .glDrawArrays _ _ _ => true
  | .glDrawElements _ _ _ _ => true
  | _ => false

/-- A presentation of the frame. -/
def isPresent : Call → Bool
  | .glfwSwapBuffers _ => true
  | _ => false

/-- Clear, draw or present: the work that makes up one rendered frame. -/
def isFrameWork (c : Call) : Bool := isClear c || isDraw c || isPresent c

/-- The calls issued after the first `glfwWindowShouldClose` that answered
true (a non-zero `int`); empty when no query answered true. -/
def afterCloseObserved : List Call → List Call
  | [] => []
  | .glfwWindowShouldClose _ r :: rest => if r = 0 then afterCloseObserved rest else rest
  | _ :: rest => afterCloseObserved rest

/-- The calls of iterations `k, k+1, ..., k+n-1` of the render loop: for each,
the loop-condition query answering 0 and then the loop body. -/
def iterations (v : Variant) (env : Env) (k n : Nat) : List Call :=
  (List.range' k n).flatMap
    (fun j => .glfwWindowShouldClose env.window 0 :: loopBody v env j)

/-- A run in which the window is created, the loader succeeds, every shader
step succeeds, nobody touches the keyboard, and the close flag is raised
during the event poll of iteration 0 (so the query of iteration 1 answers
true). -/
def envCloseAfterFirstFrame : Env where
  window := 1
  gladLoadGLLoader := 1
  vertexShader := 1
  vertexCompileStatus := 1
  vertexInfoLog := ""
  fragmentShader := 2
  fragmentCompileStatus := 1
  fragmentInfoLog := ""
  shaderProgram := 3
  linkStatus := 1
  programInfoLog := ""
  VAO := 1
  VBO := 1
  EBO := 2
  glfwWindowShouldClose := fun k => if k = 0 then 0 else 1
  glfwGetKey := fun _ => GLFW_RELEASE

/-- A run like `envCloseAfterFirstFrame` in which Escape is held down from the
start: iteration 0 requests the close itself. -/
def envEscapePressed : Env where
  window := 1
  gladLoadGLLoader := 1
  vertexShader := 1
  vertexCompileStatus := 1
  vertexInfoLog := ""
  fragmentShader := 2
  fragmentCompileStatus := 1
  fragmentInfoLog := ""
  shaderProgram := 3
  linkStatus := 1
  programInfoLog := ""
  VAO := 1
  VBO := 1
  EBO := 2
  glfwWindowShouldClose := fun k => if k = 0 then 0 else 1
  glfwGetKey := fun _ => GLFW_PRESS

/-- A query of the close flag. -/
def isCloseQuery : Call → Bool
  | .glfwWindowShouldClose _ _ => true
  | _ => false

/-! ## Reading the geometry set-up -/

/-- The `size` argument of the first `glBufferData` on `target`. -/
def bufferDataSize (target : GLenum) : List Call → Option Nat
  | [] => none
  | .glBufferData t size _ _ :: rest =>
      if t = target then some size else bufferDataSize target rest
  | _ :: rest => bufferDataSize target rest

/-- The `stride` argument of every `glVertexAttribPointer`, in call order. -/
def attribStrides (cs : List Call) : List Nat :=
  cs.filterMap fun
    | .glVertexAttribPointer _ _ _ _ stride _ => some stride
    | _ => none

/-- The `count` argument of every draw call, in call order. -/
def drawCounts (cs : List Call) : List Nat :=
  cs.filterMap fun
    | .glDrawArrays _ _ count => some count
    | .glDrawElements _ count _ _ => some count
    | _ => none

/-- Floats of the vertex buffer that the per-frame draw of a variant never
reaches (the rows of `vertices` after the third). -/
def undrawnFloats : Variant → Nat
  | .shaders_interpolation => 0
  | _ => 3

/-- An indexed draw call. -/
def isIndexedDraw : Call → Bool
  | .glDrawElements _ _ _ _ => true
  | _ => false

/-- Cuts a stream of vertex numbers into triangles, three at a time, the way
`GL_TRIANGLES` does; an incomplete last group is dropped. -/
def triples : List Nat → List (Nat × Nat × Nat)
  | a :: b :: c :: rest => (a, b, c) :: triples rest
  | _ => []

/-- The triangles (as vertex numbers) one draw call assembles, after the
OpenGL reference: `glDrawArrays(GL_TRIANGLES, first, count)` walks the
vertices `first, first+1, ..`, and `glDrawElements(GL_TRIANGLES, count,
GL_UNSIGNED_INT, offset)` walks `count` entries of the bound element array
`elements` starting at byte `offset`.  Other calls assemble nothing. -/
def assembledTriangles (elements : List Nat) : Call → List (Nat × Nat × Nat)
  | .glDrawArrays .GL_TRIANGLES first count => triples (List.range' first count)
  | .glDrawElements .GL_TRIANGLES count .GL_UNSIGNED_INT offset =>
      triples ((elements.drop (offset / sizeof_unsigned_int)).take count)
  | _ => []

/-- One generic vertex attribute array: the arguments of
`glVertexAttribPointer` that describe where its data lies. -/
structure VertexAttrib where
  index : Nat
  size : Nat
  stride : Nat
  pointer : Nat
  deriving DecidableEq, Repr

/-- Is this call `glEnableVertexAttribArray(index)`? -/
def isEnableOf (index : Nat) : Call → Bool
  | .glEnableVertexAttribArray i => i == index
  | _ => false

/-- The attribute arrays a call sequence configures and enables. -/
def enabledAttribs (cs : List Call) : List VertexAttrib :=
  cs.filterMap fun
    | .glVertexAttribPointer index size _ _ stride pointer =>
        if cs.any (isEnableOf index) then some ⟨index, size, stride, pointer⟩ else none
    | _ => none

/-- Byte offset at which vertex `i` starts reading attribute `a`, after the
OpenGL reference (a stride of 0 means tightly packed). -/
def attribStart (a : VertexAttrib) (i : Nat) : Nat :=
  a.pointer + i * (if a.stride = 0 then a.size * sizeof_float else a.stride)

/-- The positions (in floats) of the buffer that vertex `i` reads through
attribute `a`. -/
def attribFloats (a : VertexAttrib) (i : Nat) : List Nat :=
  List.range' (attribStart a i / sizeof_float) a.size

/-- The floats vertex `i` reads through attribute `a` from a buffer holding
`buffer`; `none` when the read is misaligned or leaves the buffer. -/
def fetchAttrib (buffer : List ℚ) (a : VertexAttrib) (i : Nat) : Option (List ℚ) :=
  if attribStart a i % sizeof_float = 0 ∧
      attribStart a i + a.size * sizeof_float ≤ buffer.length * sizeof_float then
    some ((buffer.drop (attribStart a i / sizeof_float)).take a.size)
  else none

/-- The `vertices` array row by row, as the source writes it: one row per
vertex, position first and (in `shaders_interpolation`) colour after it. -/
def vertexRecords : Variant → List (List ℚ)
  | .shaders_interpolation =>
      [ [ 1/2, -1/2, 0,   1, 0, 0 ],
        [ -1/2, -1/2, 0,  0, 1, 0 ],
        [ 0, 1/2, 0,      0, 0, 1 ] ]
  | _ =>
      [ [ 1/2, 1/2, 0 ],
        [ 1/2, -1/2, 0 ],
        [ -1/2, -1/2, 0 ],
        [ -1/2, 1/2, 0 ] ]

/-! ## Reading the start-up -/

/-- A line written to `std::cout`. -/
def isCout : Call → Bool
  | .cout _ => true
  | _ => false

/-- A retrieval of a diagnostic log. -/
def isInfoLogQuery : Call → Bool
  | .glGetShaderInfoLog _ _ _ _ => true
  | .glGetProgramInfoLog _ _ _ _ => true
  | _ => false

/-- A call that creates a shader object, gives it source text or compiles it. -/
def isShaderWork : Call → Bool
  | .glCreateShader _ _ => true
  | .glShaderSource _ _ _ _ => true
  | .glCompileShader _ => true
  | _ => false

/-- A call that creates a buffer or vertex-array name or fills a buffer. -/
def isBufferWork : Call → Bool
  | .glGenVertexArrays _ _ => true
  | .glGenBuffers _ _ => true
  | .glBufferData _ _ _ _ => true
  | _ => false

/-- A call that returns or takes a shader-object handle. -/
def usesShader : Call → Bool
  | .glCreateShader _ _ => true
  | .glShaderSource _ _ _ _ => true
  | .glCompileShader _ => true
  | .glGetShaderiv _ _ _ => true
  | .glGetShaderInfoLog _ _ _ _ => true
  | .glAttachShader _ _ => true
  | .glDeleteShader _ => true
  | _ => false

/-- A deletion of a shader object. -/
def isDeleteShader : Call → Bool
  | .glDeleteShader _ => true
  | _ => false

/-- A run in which window creation fails. -/
def envNoWindow : Env where
  window := NULL
  gladLoadGLLoader := 1
  vertexShader := 1
  vertexCompileStatus := 1
  vertexInfoLog := ""
  fragmentShader := 2
  fragmentCompileStatus := 1
  fragmentInfoLog := ""
  shaderProgram := 3
  linkStatus := 1
  programInfoLog := ""
  VAO := 1
  VBO := 1
  EBO := 2
  glfwWindowShouldClose := fun _ => 0
  glfwGetKey := fun _ => GLFW_RELEASE

/-- A run in which the fragment shader fails to compile (and, as a
consequence, the program fails to link) while the vertex shader compiles; the
window stays open for one frame. -/
def envFragmentFails : Env where
  window := 1
  gladLoadGLLoader := 1
  vertexShader := 1
  vertexCompileStatus := 1
  vertexInfoLog := ""
  fragmentShader := 2
  fragmentCompileStatus := 0
  fragmentInfoLog := "0:5(4): error: undeclared identifier"
  shaderProgram := 3
  linkStatus := 0
  programInfoLog := "error: linking with uncompiled shader"
  VAO := 1
  VBO := 1
  EBO := 2
  glfwWindowShouldClose := fun k => if k = 0 then 0 else 1
  glfwGetKey := fun _ => GLFW_RELEASE

/-! ## The context state the programs write -/

/-- The pieces of OpenGL context state that calls of these programs set. -/
structure GLState where
  viewport : Int × Int × Int × Int
  clearColor : ℚ × ℚ × ℚ × ℚ
  currentProgram : Nat
  vertexArrayBinding : Nat
  arrayBufferBinding : Nat
  elementArrayBufferBinding : Nat

/-- Effect of one call on the context state, after the OpenGL reference:
`glViewport` stores its four arguments as the viewport rectangle,
`glClearColor` stores the clear colour, `glUseProgram` and the bind calls
store the name they are given.  The other calls leave these pieces alone. -/
def GLState.exec (s : GLState) : Call → GLState
  | .glViewport x y width height => { s with viewport := (x, y, width, height) }
  | .glClearColor r g b a => { s with clearColor := (r, g, b, a) }
  | .glUseProgram p => { s with currentProgram := p }
  | .glBindVertexArray a => { s with vertexArrayBinding := a }
  | .glBindBuffer .GL_ARRAY_BUFFER b => { s with arrayBufferBinding := b }
  | .glBindBuffer .GL_ELEMENT_ARRAY_BUFFER b => { s with elementArrayBufferBinding := b }
  | _ => s

/-- Effect of a sequence of calls on the context state. -/
def GLState.run (s : GLState) (cs : List Call) : GLState :=
  cs.foldl GLState.exec s

/-! ## The render loop in closed form -/

theorem iterations_zero (v : Variant) (env : Env) (k : Nat) : iterations v env k 0 = [] := by
  simp [iterations]

theorem iterations_succ (v : Variant) (env : Env) (k n : Nat) :
    iterations v env k (n + 1) =
      .glfwWindowShouldClose env.window 0 :: (loopBody v env k ++ iterations v env (k + 1) n) := by
  simp [iterations, List.range'_succ]

/-- While the close query keeps answering 0 the loop keeps producing whole
iterations until the fuel is used up. -/
theorem renderLoop_running (v : Variant) (env : Env) :
    ∀ (fuel k : Nat), (∀ j, j < fuel → env.glfwWindowShouldClose (k + j) = 0) →
      renderLoop v env fuel k = (iterations v env k fuel, false) := by
  intro fuel
  induction fuel with
  | zero => intro k _; simp [renderLoop, iterations_zero]
  | succ fuel ih =>
      intro k h
      have h0 : env.glfwWindowShouldClose k = 0 := by simpa using h 0 (Nat.succ_pos _)
      have hrest : ∀ j, j < fuel → env.glfwWindowShouldClose (k + 1 + j) = 0 := by
        intro j hj
        have := h (j + 1) (Nat.succ_lt_succ hj)
        simpa [Nat.add_assoc, Nat.add_comm 1 j] using this
      simp [renderLoop, h0, ih (k + 1) hrest, iterations_succ]

/-- If the close query first answers true at its `N`-th evaluation after `k`,
the loop runs exactly the `N` iterations before it and leaves at that query. -/
theorem renderLoop_exit (v : Variant) (env : Env) :
    ∀ (N fuel k : Nat), (∀ j, j < N → env.glfwWindowShouldClose (k + j) = 0) →
      env.glfwWindowShouldClose (k + N) ≠ 0 → N < fuel →
      renderLoop v env fuel k =
        (iterations v env k N ++
          [.glfwWindowShouldClose env.window (env.glfwWindowShouldClose (k + N))], true) := by
  intro N
  induction N with
  | zero =>
      intro fuel k _ hN hfuel
      obtain ⟨f, rfl⟩ : ∃ f, fuel = f + 1 := ⟨fuel - 1, by omega⟩
      have hN0 : env.glfwWindowShouldClose k ≠ 0 := by simpa using hN
      simp [renderLoop, hN0, iterations_zero]
  | succ N ih =>
      intro fuel k h hN hfuel
      obtain ⟨f, rfl⟩ : ∃ f, fuel = f + 1 := ⟨fuel - 1, by omega⟩
      have h0 : env.glfwWindowShouldClose k = 0 := by simpa using h 0 (Nat.succ_pos _)
      have hrest : ∀ j, j < N → env.glfwWindowShouldClose (k + 1 + j) = 0 := by
        intro j hj
        have := h (j + 1) (Nat.succ_lt_succ hj)
        simpa [Nat.add_assoc, Nat.add_comm 1 j] using this
      have hN1 : env.glfwWindowShouldClose (k + 1 + N) ≠ 0 := by
        simpa [Nat.add_assoc, Nat.add_comm 1 N] using hN
      have hk : k + 1 + N = k + (N + 1) := by omega
      simp [renderLoop, h0, ih f (k + 1) hrest hN1 (by omega), iterations_succ, hk]

/-- Whatever the answers, the loop trace is a whole number of iterations,
followed by the query that answered true when the loop was left. -/
theorem renderLoop_shape (v : Variant) (env : Env) :
    ∀ (fuel k : Nat), ∃ n, n ≤ fuel ∧
      (∀ j, j < n → env.glfwWindowShouldClose (k + j) = 0) ∧
      (renderLoop v env fuel k).1 =
        iterations v env k n ++
          (if (renderLoop v env fuel k).2 then
            [.glfwWindowShouldClose env.window (env.glfwWindowShouldClose (k + n))]
           else []) ∧
      ((renderLoop v env fuel k).2 = true → env.glfwWindowShouldClose (k + n) ≠ 0) ∧
      ((renderLoop v env fuel k).2 = false → n = fuel) := by
  intro fuel
  induction fuel with
  | zero => intro k; exact ⟨0, le_refl _, by simp, by simp [renderLoop, iterations_zero]⟩
  | succ fuel ih =>
      intro k
      by_cases h0 : env.glfwWindowShouldClose k = 0
      · obtain ⟨n, hn, hzero, hcalls, hdone, hfuel⟩ := ih (k + 1)
        have hk : k + 1 + n = k + (n + 1) := by omega
        refine ⟨n + 1, by omega, ?_, ?_, ?_, ?_⟩
        · intro j hj
          cases j with
          | zero => simpa using h0
          | succ j =>
              have := hzero j (by omega)
              simpa [Nat.add_assoc, Nat.add_comm 1 j] using this
        · simp only [renderLoop, h0, if_true, iterations_succ]
          rw [hcalls, hk]
          simp
        · simp only [renderLoop, h0, if_true]
          rw [← hk]
          exact hdone
        · simp only [renderLoop, h0, if_true]
          intro h
          rw [hfuel h]
      · exact ⟨0, by omega, by simp, by simp [renderLoop, h0, iterations_zero],
          by simp [renderLoop, h0], by simp [renderLoop, h0]⟩

/-! ## Facts about the blocks shared by several results -/

theorem afterCloseObserved_skip (pre rest : List Call)
    (h : ∀ c, c ∈ pre → isCloseQuery c = false) :
    afterCloseObserved (pre ++ rest) = afterCloseObserved rest := by
  induction pre with
  | nil => rfl
  | cons c pre ih =>
      have hc := h c (List.mem_cons_self _ _)
      have ih2 := ih (fun d hd => h d (List.mem_cons_of_mem _ hd))
      cases c <;> simp_all [afterCloseObserved, isCloseQuery]

theorem afterCloseObserved_query_zero (w : Nat) (rest : List Call) :
    afterCloseObserved (.glfwWindowShouldClose w 0 :: rest) = afterCloseObserved rest := by
  simp [afterCloseObserved]

theorem afterCloseObserved_query_true (w : Nat) (r : Int) (rest : List Call) (h : r ≠ 0) :
    afterCloseObserved (.glfwWindowShouldClose w r :: rest) = rest := by
  simp [afterCloseObserved, h]

theorem forall_mem_of_all (p : Call → Bool) (l : List Call) (h : l.all p = true) :
    ∀ c, c ∈ l → p c = true := by
  simpa [List.all_eq_true] using h

theorem loopBody_no_query (v : Variant) (env : Env) (k : Nat) :
    ∀ c, c ∈ loopBody v env k → isCloseQuery c = false := by
  have h : (loopBody v env k).all (fun c => !isCloseQuery c) = true := by
    simp only [loopBody, processInput, renderAndPresent]
    split_ifs <;> rfl
  intro c hc
  simpa using forall_mem_of_all _ _ h c hc

theorem before_loop_no_query (v : Variant) (env : Env) :
    ∀ c, c ∈ createWindow env ++ loadGL env ++ startup v env → isCloseQuery c = false := by
  have h : (createWindow env ++ loadGL env ++ startup v env).all
      (fun c => !isCloseQuery c) = true := by
    simp only [createWindow, loadGL, startup, buildVertexShader, buildFragmentShader,
      linkProgram, deleteShaders]
    cases v <;> simp only [uploadGeometry] <;> split_ifs <;> rfl
  intro c hc
  simpa using forall_mem_of_all _ _ h c hc

theorem afterCloseObserved_iterations (v : Variant) (env : Env) (rest : List Call) :
    ∀ (n k : Nat), afterCloseObserved (iterations v env k n ++ rest) = afterCloseObserved rest := by
  intro n
  induction n with
  | zero => intro k; simp [iterations_zero]
  | succ n ih =>
      intro k
      rw [iterations_succ, List.cons_append, List.append_assoc,
        afterCloseObserved_query_zero,
        afterCloseObserved_skip _ _ (loopBody_no_query v env k)]
      exact ih (k + 1)

/-- One loop body holds exactly one clear, one draw and one present, in that
order, whatever the Escape key state. -/
theorem loopBody_frameWork (v : Variant) (env : Env) (k : Nat) :
    (loopBody v env k).filter isFrameWork =
      [ .glClear .GL_COLOR_BUFFER_BIT, .glDrawArrays .GL_TRIANGLES 0 3,
        .glfwSwapBuffers env.window ] := by
  simp only [loopBody, processInput, renderAndPresent]
  split_ifs <;> simp [List.filter, isFrameWork, isClear, isDraw, isPresent]

theorem iterations_countP (v : Variant) (env : Env) (p : Call → Bool)
    (hq : ∀ w r, p (.glfwWindowShouldClose w r) = false)
    (hb : ∀ k, (loopBody v env k).countP p = 1) :
    ∀ (n k : Nat), (iterations v env k n).countP p = n := by
  intro n
  induction n with
  | zero => intro k; simp [iterations_zero]
  | succ n ih =>
      intro k
      rw [iterations_succ, List.countP_cons, List.countP_append, hb k, ih (k + 1), hq]
      simp; omega

theorem loopBody_countP_isClear (v : Variant) (env : Env) (k : Nat) :
    (loopBody v env k).countP isClear = 1 := by
  simp only [loopBody, processInput, renderAndPresent]
  split_ifs <;> simp [List.countP_cons, isClear]

theorem loopBody_countP_isDraw (v : Variant) (env : Env) (k : Nat) :
    (loopBody v env k).countP isDraw = 1 := by
  simp only [loopBody, processInput, renderAndPresent]
  split_ifs <;> simp [List.countP_cons, isDraw]

theorem loopBody_countP_isPresent (v : Variant) (env : Env) (k : Nat) :
    (loopBody v env k).countP isPresent = 1 := by
  simp only [loopBody, processInput, renderAndPresent]
  split_ifs <;> simp [List.countP_cons, isPresent]

/-- The run of `main` once window creation and loading succeeded and the
close query first answers true at iteration `N`. -/
theorem main_exit (v : Variant) (env : Env) (N fuel : Nat)
    (hwin : env.window ≠ NULL) (hglad : env.gladLoadGLLoader ≠ 0)
    (hrun : ∀ k, k < N → env.glfwWindowShouldClose k = 0)
    (hclose : env.glfwWindowShouldClose N ≠ 0) (hfuel : N < fuel) :
    main v env fuel =
      ⟨createWindow env ++ loadGL env ++ startup v env ++
          (iterations v env 0 N ++
            [ .glfwWindowShouldClose env.window (env.glfwWindowShouldClose N) ]) ++
          cleanup v env, some 0⟩ := by
  have h := renderLoop_exit v env N fuel 0 (by simpa using hrun) (by simpa using hclose) hfuel
  simp only [Nat.zero_add] at h
  simp [main, hwin, hglad, h]

/-! ## C1: what happens when the close query answers true -/

/-- C1, as stated, fails.  In each variant, take the run in which the close
query answers false at iteration 0 and true at iteration 1.  The claim asks
for one more clear, draw and present after the query of iteration 1 answered
true; the programs issue none: what follows that query is the cleanup block
and nothing else, and `main` returns 0. -/
theorem close_query_true_renders_nothing_more :
    envCloseAfterFirstFrame.glfwWindowShouldClose 1 ≠ 0 ∧
    (main .TriangleShader envCloseAfterFirstFrame 2).exitCode = some 0 ∧
    (main .DrawingTriangle envCloseAfterFirstFrame 2).exitCode = some 0 ∧
    (main .shaders_interpolation envCloseAfterFirstFrame 2).exitCode = some 0 ∧
    afterCloseObserved (main .TriangleShader envCloseAfterFirstFrame 2).calls =
      [ .glDeleteVertexArrays 1 1, .glDeleteBuffers 1 1, .glDeleteProgram 3, .glfwTerminate ] ∧
    afterCloseObserved (main .DrawingTriangle envCloseAfterFirstFrame 2).calls =
      [ .glDeleteVertexArrays 1 1, .glDeleteBuffers 1 1, .glDeleteBuffers 1 2,
        .glDeleteProgram 3, .glfwTerminate ] ∧
    afterCloseObserved (main .shaders_interpolation envCloseAfterFirstFrame 2).calls =
      [ .glDeleteVertexArrays 1 1, .glDeleteBuffers 1 1, .glDeleteProgram 3, .glfwTerminate ] ∧
    ¬ ((afterCloseObserved (main .TriangleShader envCloseAfterFirstFrame 2).calls).countP isClear = 1 ∧
       (afterCloseObserved (main .TriangleShader envCloseAfterFirstFrame 2).calls).countP isDraw = 1 ∧
       (afterCloseObserved (main .TriangleShader envCloseAfterFirstFrame 2).calls).countP
          isPresent = 1) ∧
    ¬ ((afterCloseObserved (main .DrawingTriangle envCloseAfterFirstFrame 2).calls).countP isClear = 1 ∧
       (afterCloseObserved (main .DrawingTriangle envCloseAfterFirstFrame 2).calls).countP isDraw = 1 ∧
       (afterCloseObserved (main .DrawingTriangle envCloseAfterFirstFrame 2).calls).countP
          isPresent = 1) ∧
    ¬ ((afterCloseObserved (main .shaders_interpolation envCloseAfterFirstFrame 2).calls).countP
          isClear = 1 ∧
       (afterCloseObserved (main .shaders_interpolation envCloseAfterFirstFrame 2).calls).countP
          isDraw = 1 ∧
       (afterCloseObserved (main .shaders_interpolation envCloseAfterFirstFrame 2).calls).countP
          isPresent = 1) := by
  refine ⟨by decide, by decide, by decide, by decide, by decide, by decide, by decide,
    by decide, by decide, by decide⟩

/-- C1, amended.  In every variant, for every run that reaches the Frame Loop
and every `N`: when the close query answers false at iterations `0 .. N-1` and
true at iteration `N`, the loop is left at that query.  The run consists of
the start-up blocks, exactly `N` whole iterations, the query that answered
true, and the cleanup block; `main` returns 0; nothing that follows the true
answer is a clear, a draw or a present (the calls after it are exactly the
cleanup block); the `N` iterations hold `N` clears, `N` draws and `N`
presents; and each iteration that starts performs exactly one clear, one draw
and one present, in that order, whatever `glfwGetKey` answered in it: the
frame of the iteration in which Escape requests the close is not dropped. -/
theorem close_query_checked_at_loop_head (v : Variant) (env : Env) (N fuel : Nat)
    (hwin : env.window ≠ NULL) (hglad : env.gladLoadGLLoader ≠ 0)
    (hrun : ∀ k, k < N → env.glfwWindowShouldClose k = 0)
    (hclose : env.glfwWindowShouldClose N ≠ 0) (hfuel : N < fuel) :
    main v env fuel =
      ⟨createWindow env ++ loadGL env ++ startup v env ++
          (iterations v env 0 N ++
            [ .glfwWindowShouldClose env.window (env.glfwWindowShouldClose N) ]) ++
          cleanup v env, some 0⟩ ∧
    afterCloseObserved (main v env fuel).calls = cleanup v env ∧
    (afterCloseObserved (main v env fuel).calls).countP isFrameWork = 0 ∧
    (iterations v env 0 N).countP isClear = N ∧
    (iterations v env 0 N).countP isDraw = N ∧
    (iterations v env 0 N).countP isPresent = N ∧
    ∀ k, (loopBody v env k).filter isFrameWork =
      [ .glClear .GL_COLOR_BUFFER_BIT, .glDrawArrays .GL_TRIANGLES 0 3,
        .glfwSwapBuffers env.window ] := by
  have hmain := main_exit v env N fuel hwin hglad hrun hclose hfuel
  have hafter : afterCloseObserved (main v env fuel).calls = cleanup v env := by
    rw [hmain]
    show afterCloseObserved (createWindow env ++ loadGL env ++ startup v env ++
      (iterations v env 0 N ++
        [ .glfwWindowShouldClose env.window (env.glfwWindowShouldClose N) ]) ++
      cleanup v env) = cleanup v env
    rw [List.append_assoc, afterCloseObserved_skip _ _ (before_loop_no_query v env),
      List.append_assoc, afterCloseObserved_iterations, List.singleton_append,
      afterCloseObserved_query_true _ _ _ hclose]
  refine ⟨hmain, hafter, ?_, ?_, ?_, ?_, loopBody_frameWork v env⟩
  · rw [hafter]
    cases v <;> rfl
  · exact iterations_countP v env isClear (fun _ _ => rfl) (loopBody_countP_isClear v env) N 0
  · exact iterations_countP v env isDraw (fun _ _ => rfl) (loopBody_countP_isDraw v env) N 0
  · exact iterations_countP v env isPresent (fun _ _ => rfl)
      (loopBody_countP_isPresent v env) N 0

/-- C1, amended, at a concrete run: Escape is held down, so iteration 0
requests the close; its frame is still rendered and the query of iteration 1
ends the loop. -/
theorem close_query_checked_at_loop_head_witness :
    envEscapePressed.window ≠ NULL ∧ envEscapePressed.gladLoadGLLoader ≠ 0 ∧
    (∀ k, k < 1 → envEscapePressed.glfwWindowShouldClose k = 0) ∧
    envEscapePressed.glfwWindowShouldClose 1 ≠ 0 ∧
    afterCloseObserved (main .TriangleShader envEscapePressed 2).calls =
      cleanup .TriangleShader envEscapePressed ∧
    (iterations .TriangleShader envEscapePressed 0 1).countP isDraw = 1 :=
  have h := close_query_checked_at_loop_head .TriangleShader envEscapePressed 1 2
    (by decide) (by decide) (by decide) (by decide) (by decide)
  ⟨by decide, by decide, by decide, by decide, h.2.1, h.2.2.2.2.1⟩

/-! ## C9: the order of work inside one iteration -/

/-- C9.  In every variant and for every sequence of answers, the trace of the
Frame Loop is a whole number `n` of iterations, each of which is, in this
order: the loop-condition query (answering false), the Escape key poll, the
close request exactly when the poll answered `GLFW_PRESS`, the clear colour of
the variant, the clear of the colour buffer, the bind of the program created
at start-up, one `glDrawArrays`, the buffer swap and the event poll.  After
the last iteration comes only the query that answered true (when the loop was
left); when the fuel ran out instead, all `fuel` iterations are complete.  No
call of an iteration appears in another one. -/
theorem loop_iteration_order (v : Variant) (env : Env) (fuel : Nat) :
    .glCreateProgram env.shaderProgram ∈ startup v env ∧
    ∃ n, n ≤ fuel ∧
      (renderLoop v env fuel 0).1 =
        (List.range n).flatMap (fun k =>
          [ .glfwWindowShouldClose env.window 0,
            .glfwGetKey env.window GLFW_KEY_ESCAPE (env.glfwGetKey k) ] ++
          (if env.glfwGetKey k = GLFW_PRESS then
            [ .glfwSetWindowShouldClose env.window true ]
           else []) ++
          [ (match v with
              | .shaders_interpolation => .glClearColor 0 0 0 0
              | _ => .glClearColor 0 0 1 0),
            .glClear .GL_COLOR_BUFFER_BIT,
            .glUseProgram env.shaderProgram,
            .glDrawArrays .GL_TRIANGLES 0 3,
            .glfwSwapBuffers env.window,
            .glfwPollEvents ]) ++
        (if (renderLoop v env fuel 0).2 then
          [ .glfwWindowShouldClose env.window (env.glfwWindowShouldClose n) ]
         else []) ∧
      ((renderLoop v env fuel 0).2 = true → env.glfwWindowShouldClose n ≠ 0) ∧
      ((renderLoop v env fuel 0).2 = false → n = fuel) := by
  constructor
  · simp [startup, linkProgram]
  · obtain ⟨n, hn, _, hcalls, hdone, hfuel⟩ := renderLoop_shape v env fuel 0
    simp only [Nat.zero_add] at hcalls hdone
    refine ⟨n, hn, ?_, hdone, hfuel⟩
    rw [hcalls]
    congr 1
    simp only [iterations, List.range_eq_range']
    congr 1
    funext k
    cases v <;> simp [loopBody, processInput, renderAndPresent, clearColor]

/-- A property of the loop-condition query and of every call of a loop body
holds for every call of the loop trace. -/
theorem renderLoop_forall (v : Variant) (env : Env) (P : Call → Prop)
    (hq : ∀ r, P (.glfwWindowShouldClose env.window r))
    (hb : ∀ k c, c ∈ loopBody v env k → P c) :
    ∀ (fuel k : Nat) (c : Call), c ∈ (renderLoop v env fuel k).1 → P c := by
  intro fuel
  induction fuel with
  | zero => intro k c hc; simp [renderLoop] at hc
  | succ fuel ih =>
      intro k c hc
      by_cases h0 : env.glfwWindowShouldClose k = 0
      · simp only [renderLoop, h0, if_true, List.mem_cons, List.mem_append] at hc
        rcases hc with hc | hc | hc
        · rw [hc]; exact hq _
        · exact hb k c hc
        · exact ih (k + 1) c hc
      · simp only [renderLoop, h0, if_false, List.mem_singleton] at hc
        rw [hc]; exact hq _

/-! ## C2: floats uploaded against floats drawn -/

/-- C2, as stated, fails for `TriangleShader` and `DrawingTriangle`: both
upload 48 bytes (12 floats, four vertices) with a stride of 12 bytes
(3 floats) and draw 3 vertices per frame, so stride times count is 9 floats,
not 12. -/
theorem position_only_draw_leaves_floats :
    bufferDataSize .GL_ARRAY_BUFFER (uploadGeometry .TriangleShader envCloseAfterFirstFrame)
      = some 48 ∧
    attribStrides (uploadGeometry .TriangleShader envCloseAfterFirstFrame) = [12] ∧
    drawCounts (loopBody .TriangleShader envCloseAfterFirstFrame 0) = [3] ∧
    bufferDataSize .GL_ARRAY_BUFFER (uploadGeometry .DrawingTriangle envCloseAfterFirstFrame)
      = some 48 ∧
    attribStrides (uploadGeometry .DrawingTriangle envCloseAfterFirstFrame) = [12] ∧
    drawCounts (loopBody .DrawingTriangle envCloseAfterFirstFrame 0) = [3] ∧
    (12 / sizeof_float) * 3 ≠ 48 / sizeof_float := by
  refine ⟨rfl, rfl, rfl, rfl, rfl, rfl, by decide⟩

/-- C2, amended.  In every variant the vertex buffer is uploaded with
`sizeof(vertices)` bytes (72 in `shaders_interpolation`, 48 in the other two),
every attribute has the same stride (24 bytes, respectively 12), and each
frame issues one draw of 3 vertices.  Stride in floats times 3, plus the
floats of the rows the draw does not reach (none in `shaders_interpolation`,
the 3 floats of the fourth vertex in `TriangleShader` and `DrawingTriangle`),
equals the buffer size in floats.  So the draw covers the whole upload in
`shaders_interpolation` and the first three of four vertices in the other
two, and never more than was uploaded. -/
theorem draw_covers_leading_vertices (v : Variant) (env : Env) (k : Nat) :
    bufferDataSize .GL_ARRAY_BUFFER (uploadGeometry v env) = some (sizeof_vertices v) ∧
    sizeof_vertices v = (match v with | .shaders_interpolation => 72 | _ => 48) ∧
    attribStrides (uploadGeometry v env) =
      (match v with | .shaders_interpolation => [24, 24] | _ => [12]) ∧
    drawCounts (loopBody v env k) = [3] ∧
    sizeof_vertices v % sizeof_float = 0 ∧
    ∀ s, s ∈ attribStrides (uploadGeometry v env) →
      s % sizeof_float = 0 ∧
      (s / sizeof_float) * 3 + undrawnFloats v = sizeof_vertices v / sizeof_float ∧
      (s / sizeof_float) * 3 ≤ sizeof_vertices v / sizeof_float := by
  have hdraw : drawCounts (loopBody v env k) = [3] := by
    simp only [loopBody, processInput, renderAndPresent]
    split_ifs <;> rfl
  cases v
  · refine ⟨rfl, rfl, rfl, hdraw, by decide, ?_⟩
    intro s hs
    have hs2 : s ∈ [12] := hs
    simp only [List.mem_singleton] at hs2
    subst hs2
    decide
  · refine ⟨rfl, rfl, rfl, hdraw, by decide, ?_⟩
    intro s hs
    have hs2 : s ∈ [12] := hs
    simp only [List.mem_singleton] at hs2
    subst hs2
    decide
  · refine ⟨rfl, rfl, rfl, hdraw, by decide, ?_⟩
    intro s hs
    have hs2 : s ∈ [24, 24] := hs
    simp only [List.mem_cons, List.mem_singleton, List.not_mem_nil, or_false, or_self] at hs2
    subst hs2
    decide

/-- A boolean test that holds for every call the source can issue outside the
loop, for the loop-condition query and for every loop body, holds for every
call of every run. -/
theorem main_forall (v : Variant) (env : Env) (p : Call → Bool)
    (hblocks : (createWindow env ++ loadGL env ++ startup v env ++ cleanup v env).all p = true)
    (hwin : p (.cout "Failed to create GLFW window") = true)
    (hglad : p (.cout "Failed to initialize GLAD") = true)
    (hterm : p .glfwTerminate = true)
    (hq : ∀ r, p (.glfwWindowShouldClose env.window r) = true)
    (hb : ∀ k, (loopBody v env k).all p = true) :
    ∀ (fuel : Nat) (c : Call), c ∈ (main v env fuel).calls → p c = true := by
  intro fuel c hc
  have hbl := forall_mem_of_all p _ hblocks
  have hloop := renderLoop_forall v env (fun c => p c = true) hq
    (fun k c hc => forall_mem_of_all p _ (hb k) c hc) fuel 0
  simp only [main] at hc
  split_ifs at hc
  · simp only [List.mem_append, List.mem_cons, List.mem_singleton, List.not_mem_nil,
      or_false] at hc
    rcases hc with hc | hc | hc
    · exact hbl c (by simp [hc])
    · rw [hc]; exact hwin
    · rw [hc]; exact hterm
  · simp only [List.mem_append, List.mem_singleton] at hc
    rcases hc with (hc | hc) | hc
    · exact hbl c (by simp [hc])
    · exact hbl c (by simp [hc])
    · rw [hc]; exact hglad
  · simp only [List.mem_append] at hc
    rcases hc with (((hc | hc) | hc) | hc) | hc
    · exact hbl c (by simp [hc])
    · exact hbl c (by simp [hc])
    · exact hbl c (by simp [hc])
    · exact hloop c hc
    · exact hbl c (by simp [hc])
  · simp only [List.mem_append] at hc
    rcases hc with ((hc | hc) | hc) | hc
    · exact hbl c (by simp [hc])
    · exact hbl c (by simp [hc])
    · exact hbl c (by simp [hc])
    · exact hloop c hc

/-! ## C3: the draw call of the variant with an index buffer -/

/-- C3, as stated, fails.  `DrawingTriangle` uploads the index buffer, but the
draw call of its loop body is `glDrawArrays(GL_TRIANGLES, 0, 3)`, not an
indexed draw: a frame assembles the single triangle (v0, v1, v2), not the two
triangles (v0, v1, v3) and (v1, v2, v3). -/
theorem indexed_draw_is_not_issued :
    (loopBody .DrawingTriangle envCloseAfterFirstFrame 0).filter isDraw =
      [ .glDrawArrays .GL_TRIANGLES 0 3 ] ∧
    (loopBody .DrawingTriangle envCloseAfterFirstFrame 0).any isIndexedDraw = false ∧
    (loopBody .DrawingTriangle envCloseAfterFirstFrame 0).flatMap (assembledTriangles indices) =
      [ (0, 1, 2) ] ∧
    (loopBody .DrawingTriangle envCloseAfterFirstFrame 0).flatMap (assembledTriangles indices) ≠
      [ (0, 1, 3), (1, 2, 3) ] := by
  refine ⟨rfl, rfl, rfl, by decide⟩

/-- C3, amended.  `DrawingTriangle` uploads the four corners
(0.5,0.5,0), (0.5,-0.5,0), (-0.5,-0.5,0), (-0.5,0.5,0) and the index buffer
[0,1,3, 1,2,3], but the single draw call of every iteration is the direct
draw `glDrawArrays(GL_TRIANGLES, 0, 3)`; no indexed draw is issued anywhere
in a run.  Every frame therefore assembles exactly one triangle, (v0, v1, v2),
whose corners are (0.5,0.5,0), (0.5,-0.5,0), (-0.5,-0.5,0); the index buffer is
not consumed.  (The indexed draw of 6 that the source keeps in a comment would
assemble (v0, v1, v3) and (v1, v2, v3).) -/
theorem indexed_variant_draws_one_triangle (env : Env) (fuel k : Nat) :
    .glBufferData .GL_ARRAY_BUFFER 48
        (.floats [ 1/2, 1/2, 0,  1/2, -1/2, 0,  -1/2, -1/2, 0,  -1/2, 1/2, 0 ])
        .GL_STATIC_DRAW ∈ uploadGeometry .DrawingTriangle env ∧
    .glBufferData .GL_ELEMENT_ARRAY_BUFFER 24 (.uints [0, 1, 3, 1, 2, 3])
        .GL_STATIC_DRAW ∈ uploadGeometry .DrawingTriangle env ∧
    (loopBody .DrawingTriangle env k).filter isDraw = [ .glDrawArrays .GL_TRIANGLES 0 3 ] ∧
    (∀ c, c ∈ (main .DrawingTriangle env fuel).calls → isIndexedDraw c = false) ∧
    (loopBody .DrawingTriangle env k).flatMap (assembledTriangles indices) = [ (0, 1, 2) ] ∧
    enabledAttribs (uploadGeometry .DrawingTriangle env) = [ ⟨0, 3, 12, 0⟩ ] ∧
    (List.range 3).map (fetchAttrib (vertices .DrawingTriangle) ⟨0, 3, 12, 0⟩) =
      [ some [1/2, 1/2, 0], some [1/2, -1/2, 0], some [-1/2, -1/2, 0] ] ∧
    assembledTriangles indices (.glDrawElements .GL_TRIANGLES 6 .GL_UNSIGNED_INT 0) =
      [ (0, 1, 3), (1, 2, 3) ] := by
  have hdraw : (loopBody .DrawingTriangle env k).filter isDraw =
      [ .glDrawArrays .GL_TRIANGLES 0 3 ] := by
    simp only [loopBody, processInput, renderAndPresent]
    split_ifs <;> rfl
  have htri : (loopBody .DrawingTriangle env k).flatMap (assembledTriangles indices) =
      [ (0, 1, 2) ] := by
    simp only [loopBody, processInput, renderAndPresent]
    split_ifs <;> rfl
  have hnone : ∀ c, c ∈ (main .DrawingTriangle env fuel).calls → isIndexedDraw c = false := by
    intro c hc
    have h := main_forall .DrawingTriangle env (fun c => !isIndexedDraw c)
      (by
        simp only [createWindow, loadGL, startup, buildVertexShader, buildFragmentShader,
          linkProgram, deleteShaders, uploadGeometry, cleanup]
        split_ifs <;> rfl)
      rfl rfl rfl (fun _ => rfl)
      (by
        intro j
        simp only [loopBody, processInput, renderAndPresent]
        split_ifs <;> rfl)
      fuel c hc
    simpa using h
  refine ⟨?_, ?_, hdraw, hnone, htri, rfl, rfl, rfl⟩
  · simp [uploadGeometry, sizeof_vertices, vertices, sizeof_float]
  · simp [uploadGeometry, sizeof_indices, indices, sizeof_unsigned_int]

/-! ## C8: attribute layout against the uploaded array -/

/-- C8.  In every variant the uploaded buffer is the `vertices` array, whose
rows are the vertex records; the enabled attribute slots are slot 0 with
3 floats, stride 12, offset 0 (position-only variants) or slots 0 and 1 with
3 floats each, stride 24, offsets 0 and 12 (`shaders_interpolation`); the draw
covers vertices 0, 1, 2.  For each of these vertices `i` and each enabled slot
the read starts at byte `offset + i * stride`, ends inside the buffer, and
returns the three floats of row `i` that belong to the slot (floats `0..2` for
slot 0, the position; floats `3..5` for slot 1, the colour).  The float
positions read by the enabled slots at vertex `i`, taken in slot order, are
exactly the positions of row `i`, each once.  The position-only draw reads
(0.5,0.5,0), (0.5,-0.5,0), (-0.5,-0.5,0), and the colour slot of
`shaders_interpolation` reads red, green and blue. -/
theorem attribute_layout_matches_upload (v : Variant) (env : Env) (k : Nat) :
    (vertexRecords v).flatten = vertices v ∧
    .glBufferData .GL_ARRAY_BUFFER (sizeof_vertices v) (.floats (vertices v))
        .GL_STATIC_DRAW ∈ uploadGeometry v env ∧
    (loopBody v env k).filter isDraw = [ .glDrawArrays .GL_TRIANGLES 0 3 ] ∧
    enabledAttribs (uploadGeometry v env) =
      (match v with
        | .shaders_interpolation => [ ⟨0, 3, 24, 0⟩, ⟨1, 3, 24, 12⟩ ]
        | _ => [ ⟨0, 3, 12, 0⟩ ]) ∧
    (∀ a i, a ∈ enabledAttribs (uploadGeometry v env) → i < 3 →
      attribStart a i = a.pointer + i * a.stride ∧
      attribStart a i + 3 * sizeof_float ≤ sizeof_vertices v ∧
      ∃ row, (vertexRecords v)[i]? = some row ∧
        fetchAttrib (vertices v) a i = some ((row.drop (3 * a.index)).take 3)) ∧
    (∀ i, i < 3 → ∃ row, (vertexRecords v)[i]? = some row ∧
      (enabledAttribs (uploadGeometry v env)).flatMap (fun a => attribFloats a i) =
        List.range' (i * row.length) row.length) ∧
    (List.range 3).map (fetchAttrib (vertices .TriangleShader) ⟨0, 3, 12, 0⟩) =
      [ some [1/2, 1/2, 0], some [1/2, -1/2, 0], some [-1/2, -1/2, 0] ] ∧
    (List.range 3).map (fetchAttrib (vertices .shaders_interpolation) ⟨1, 3, 24, 12⟩) =
      [ some [1, 0, 0], some [0, 1, 0], some [0, 0, 1] ] := by
  have hdraw : (loopBody v env k).filter isDraw = [ .glDrawArrays .GL_TRIANGLES 0 3 ] := by
    simp only [loopBody, processInput, renderAndPresent]
    split_ifs <;> rfl
  cases v
  · refine ⟨rfl, by simp [uploadGeometry], hdraw, rfl, ?_, ?_, rfl, rfl⟩
    · intro a i ha hi
      have ha2 : a ∈ [ (⟨0, 3, 12, 0⟩ : VertexAttrib) ] := ha
      simp only [List.mem_singleton] at ha2
      subst ha2
      interval_cases i
      · exact ⟨rfl, by decide, _, rfl, rfl⟩
      · exact ⟨rfl, by decide, _, rfl, rfl⟩
      · exact ⟨rfl, by decide, _, rfl, rfl⟩
    · intro i hi
      interval_cases i
      · exact ⟨_, rfl, rfl⟩
      · exact ⟨_, rfl, rfl⟩
      · exact ⟨_, rfl, rfl⟩
  · refine ⟨rfl, by simp [uploadGeometry], hdraw, rfl, ?_, ?_, rfl, rfl⟩
    · intro a i ha hi
      have ha2 : a ∈ [ (⟨0, 3, 12, 0⟩ : VertexAttrib) ] := ha
      simp only [List.mem_singleton] at ha2
      subst ha2
      interval_cases i
      · exact ⟨rfl, by decide, _, rfl, rfl⟩
      · exact ⟨rfl, by decide, _, rfl, rfl⟩
      · exact ⟨rfl, by decide, _, rfl, rfl⟩
    · intro i hi
      interval_cases i
      · exact ⟨_, rfl, rfl⟩
      · exact ⟨_, rfl, rfl⟩
      · exact ⟨_, rfl, rfl⟩
  · refine ⟨rfl, by simp [uploadGeometry], hdraw, rfl, ?_, ?_, rfl, rfl⟩
    · intro a i ha hi
      have ha2 : a ∈ [ (⟨0, 3, 24, 0⟩ : VertexAttrib), ⟨1, 3, 24, 12⟩ ] := ha
      simp only [List.mem_cons, List.mem_singleton, List.not_mem_nil, or_false] at ha2
      rcases ha2 with ha2 | ha2
      · subst ha2
        interval_cases i
        · exact ⟨rfl, by decide, _, rfl, rfl⟩
        · exact ⟨rfl, by decide, _, rfl, rfl⟩
        · exact ⟨rfl, by decide, _, rfl, rfl⟩
      · subst ha2
        interval_cases i
        · exact ⟨rfl, by decide, _, rfl, rfl⟩
        · exact ⟨rfl, by decide, _, rfl, rfl⟩
        · exact ⟨rfl, by decide, _, rfl, rfl⟩
    · intro i hi
      interval_cases i
      · exact ⟨_, rfl, rfl⟩
      · exact ⟨_, rfl, rfl⟩
      · exact ⟨_, rfl, rfl⟩

/-! ## C6: the resize callback -/

/-- C6.  For every window, every `(width, height)` and every context state,
`framebuffer_size_callback` issues the single call
`glViewport(0, 0, width, height)`; afterwards the viewport is
`(0, 0, width, height)` whatever it was before, and putting the old viewport
back gives the old state again: nothing else was changed. -/
theorem resize_callback_sets_viewport_only (s : GLState) (window : Nat) (width height : Int) :
    framebuffer_size_callback window width height = [ .glViewport 0 0 width height ] ∧
    (s.run (framebuffer_size_callback window width height)).viewport = (0, 0, width, height) ∧
    { s.run (framebuffer_size_callback window width height) with viewport := s.viewport } = s ∧
    (s.run (framebuffer_size_callback window width height)).clearColor = s.clearColor ∧
    (s.run (framebuffer_size_callback window width height)).currentProgram = s.currentProgram ∧
    (s.run (framebuffer_size_callback window width height)).vertexArrayBinding =
      s.vertexArrayBinding ∧
    (s.run (framebuffer_size_callback window width height)).arrayBufferBinding =
      s.arrayBufferBinding ∧
    (s.run (framebuffer_size_callback window width height)).elementArrayBufferBinding =
      s.elementArrayBufferBinding := by
  refine ⟨rfl, rfl, rfl, rfl, rfl, rfl, rfl, rfl⟩

/-! ## C5: fatal start-up failures -/

/-- C5.  If `glfwCreateWindow` returns `NULL`, or the loader returns zero,
`main` returns -1.  On the first path the run is the window set-up, the line
"Failed to create GLFW window" and `glfwTerminate`; on the second it is the
window set-up, the context set-up, the loader call and the line
"Failed to initialize GLAD".  On either path no call of the run queries the
close flag (the Frame Loop is not entered), creates or compiles a shader,
creates or fills a buffer, or draws. -/
theorem startup_failure_exits_before_loop (v : Variant) (env : Env) (fuel : Nat)
    (h : env.window = NULL ∨ env.gladLoadGLLoader = 0) :
    (main v env fuel).exitCode = some (-1) ∧
    (env.window = NULL →
      (main v env fuel).calls =
        createWindow env ++ [ .cout "Failed to create GLFW window", .glfwTerminate ]) ∧
    (env.window ≠ NULL →
      (main v env fuel).calls =
        createWindow env ++ loadGL env ++ [ .cout "Failed to initialize GLAD" ]) ∧
    (main v env fuel).calls.filter isCout =
      [ .cout (if env.window = NULL then "Failed to create GLFW window"
               else "Failed to initialize GLAD") ] ∧
    ∀ c, c ∈ (main v env fuel).calls →
      isCloseQuery c = false ∧ isShaderWork c = false ∧ isBufferWork c = false ∧
        isDraw c = false := by
  by_cases hw : env.window = NULL
  · refine ⟨by simp [main, hw], fun _ => by simp [main, hw], fun hn => absurd hw hn, ?_, ?_⟩
    · simp only [main, hw, if_true]
      rfl
    · have hall : ((main v env fuel).calls).all (fun c =>
          !isCloseQuery c && (!isShaderWork c && (!isBufferWork c && !isDraw c))) = true := by
        simp only [main, hw, if_true]
        rfl
      intro c hc
      simpa using forall_mem_of_all _ _ hall c hc
  · have hg : env.gladLoadGLLoader = 0 := h.resolve_left hw
    refine ⟨by simp [main, hw, hg], fun hn => absurd hn hw, fun _ => by simp [main, hw, hg],
      ?_, ?_⟩
    · simp only [main, hw, hg, if_true, if_false]
      rfl
    · have hall : ((main v env fuel).calls).all (fun c =>
          !isCloseQuery c && (!isShaderWork c && (!isBufferWork c && !isDraw c))) = true := by
        simp only [main, hw, hg, if_true, if_false]
        rfl
      intro c hc
      simpa using forall_mem_of_all _ _ hall c hc

/-- C5 at a concrete run: window creation fails. -/
theorem startup_failure_exits_before_loop_witness :
    (envNoWindow.window = NULL ∨ envNoWindow.gladLoadGLLoader = 0) ∧
    (main .TriangleShader envNoWindow 5).exitCode = some (-1) ∧
    (main .TriangleShader envNoWindow 5).calls.filter isCout =
      [ .cout "Failed to create GLFW window" ] :=
  have h := startup_failure_exits_before_loop .TriangleShader envNoWindow 5 (Or.inl rfl)
  ⟨Or.inl rfl, h.1, h.2.2.2.1⟩

/-- The run of `main` once window creation and loading succeeded. -/
theorem main_started (v : Variant) (env : Env) (fuel : Nat)
    (hwin : env.window ≠ NULL) (hglad : env.gladLoadGLLoader ≠ 0) :
    (main v env fuel).calls =
      createWindow env ++ loadGL env ++ startup v env ++ (renderLoop v env fuel 0).1 ++
        (if (renderLoop v env fuel 0).2 then cleanup v env else []) ∧
    (main v env fuel).exitCode = (if (renderLoop v env fuel 0).2 then some 0 else none) := by
  simp only [main, hwin, hglad, if_false]
  split_ifs <;> simp

/-- A test that fails on the loop-condition query and on every call of every
loop body selects nothing from the loop trace. -/
theorem renderLoop_filter_nil (v : Variant) (env : Env) (p : Call → Bool)
    (hq : ∀ r, p (.glfwWindowShouldClose env.window r) = false)
    (hb : ∀ k, (loopBody v env k).all (fun c => !p c) = true) (fuel : Nat) :
    (renderLoop v env fuel 0).1.filter p = [] := by
  rw [List.filter_eq_nil_iff]
  intro c hc
  have h := renderLoop_forall v env (fun c => p c = false) hq
    (fun k c hc => by simpa using forall_mem_of_all _ _ (hb k) c hc) fuel 0 c hc
  simp [h]

/-! ## C4: failed shader steps are reported and start-up goes on -/

/-- C4.  In every variant, once the window exists and the loader succeeded,
and whatever the three status flags are: `main` never returns -1 (it is still
in the loop, or it returned 0); the run consists of the window and context
set-up, the whole start-up block, the Frame Loop and, when the loop was left,
the cleanup; the start-up block creates the program, attaches both shaders,
links and queries the link status; every loop body binds that program and
draws, and the body of iteration 0 is part of the run as soon as the first
close query answers false; the lines written to `std::cout` are, in order,
one for the vertex compile step exactly when its flag is 0, one for the
fragment compile step exactly when its flag is 0, one for the link step
exactly when its flag is 0, each carrying the log of its own step, and the
log retrievals are exactly the matching ones.  With all three flags non-zero
nothing is written.  (The line of the fragment step carries the fragment log
under the label the source gives it; which label that is, is the matter of
C10.) -/
theorem shader_failures_reported_not_fatal (v : Variant) (env : Env) (fuel : Nat)
    (hwin : env.window ≠ NULL) (hglad : env.gladLoadGLLoader ≠ 0) :
    (main v env fuel).exitCode ≠ some (-1) ∧
    ((main v env fuel).exitCode = none ∨ (main v env fuel).exitCode = some 0) ∧
    (main v env fuel).calls =
      createWindow env ++ loadGL env ++ startup v env ++ (renderLoop v env fuel 0).1 ++
        (if (renderLoop v env fuel 0).2 then cleanup v env else []) ∧
    List.IsInfix
      [ .glCreateProgram env.shaderProgram,
        .glAttachShader env.shaderProgram env.vertexShader,
        .glAttachShader env.shaderProgram env.fragmentShader,
        .glLinkProgram env.shaderProgram,
        .glGetProgramiv env.shaderProgram .GL_LINK_STATUS env.linkStatus ]
      (startup v env) ∧
    (∀ k, List.IsInfix [ .glUseProgram env.shaderProgram, .glDrawArrays .GL_TRIANGLES 0 3 ]
      (loopBody v env k)) ∧
    (0 < fuel → env.glfwWindowShouldClose 0 = 0 →
      List.IsInfix (loopBody v env 0) (main v env fuel).calls) ∧
    (main v env fuel).calls.filter isCout =
      (if env.vertexCompileStatus = 0 then
        [ .cout ("ERROR::SHADER::VERTEX::COMPILATION_FAILED\n" ++ env.vertexInfoLog) ]
       else []) ++
      (if env.fragmentCompileStatus = 0 then
        [ .cout ("ERROR::SHADER::VERTEX::COMPILATION_FAILED\n" ++ env.fragmentInfoLog) ]
       else []) ++
      (if env.linkStatus = 0 then
        [ .cout ("ERROR::SHADER::PROGRAM::LINKING_FAILED\n" ++ env.programInfoLog) ]
       else []) ∧
    (main v env fuel).calls.filter isInfoLogQuery =
      (if env.vertexCompileStatus = 0 then [ .glGetShaderInfoLog env.vertexShader 512 NULL env.vertexInfoLog ]
       else []) ++
      (if env.fragmentCompileStatus = 0 then [ .glGetShaderInfoLog env.fragmentShader 512 NULL env.fragmentInfoLog ]
       else []) ++
      (if env.linkStatus = 0 then [ .glGetProgramInfoLog env.shaderProgram 512 NULL env.programInfoLog ]
       else []) ∧
    (env.vertexCompileStatus ≠ 0 → env.fragmentCompileStatus ≠ 0 → env.linkStatus ≠ 0 →
      (main v env fuel).calls.filter isCout = []) := by
  obtain ⟨hcalls, hexit⟩ := main_started v env fuel hwin hglad
  have hloopCout : (renderLoop v env fuel 0).1.filter isCout = [] :=
    renderLoop_filter_nil v env isCout (fun _ => rfl)
      (by
        intro k
        simp only [loopBody, processInput, renderAndPresent]
        split_ifs <;> rfl) fuel
  have hloopLog : (renderLoop v env fuel 0).1.filter isInfoLogQuery = [] :=
    renderLoop_filter_nil v env isInfoLogQuery (fun _ => rfl)
      (by
        intro k
        simp only [loopBody, processInput, renderAndPresent]
        split_ifs <;> rfl) fuel
  have hcleanCout : (if (renderLoop v env fuel 0).2 then cleanup v env else []).filter isCout
      = [] := by
    split_ifs
    · cases v <;> rfl
    · rfl
  have hcleanLog : (if (renderLoop v env fuel 0).2 then cleanup v env else []).filter
      isInfoLogQuery = [] := by
    split_ifs
    · cases v <;> rfl
    · rfl
  have hstartCout : (startup v env).filter isCout =
      (if env.vertexCompileStatus = 0 then
        [ .cout ("ERROR::SHADER::VERTEX::COMPILATION_FAILED\n" ++ env.vertexInfoLog) ]
       else []) ++
      (if env.fragmentCompileStatus = 0 then
        [ .cout ("ERROR::SHADER::VERTEX::COMPILATION_FAILED\n" ++ env.fragmentInfoLog) ]
       else []) ++
      (if env.linkStatus = 0 then
        [ .cout ("ERROR::SHADER::PROGRAM::LINKING_FAILED\n" ++ env.programInfoLog) ]
       else []) := by
    cases v <;>
      simp only [startup, buildVertexShader, buildFragmentShader, linkProgram, deleteShaders,
        uploadGeometry] <;>
      split_ifs <;> rfl
  have hstartLog : (startup v env).filter isInfoLogQuery =
      (if env.vertexCompileStatus = 0 then [ .glGetShaderInfoLog env.vertexShader 512 NULL env.vertexInfoLog ]
       else []) ++
      (if env.fragmentCompileStatus = 0 then [ .glGetShaderInfoLog env.fragmentShader 512 NULL env.fragmentInfoLog ]
       else []) ++
      (if env.linkStatus = 0 then [ .glGetProgramInfoLog env.shaderProgram 512 NULL env.programInfoLog ]
       else []) := by
    cases v <;>
      simp only [startup, buildVertexShader, buildFragmentShader, linkProgram, deleteShaders,
        uploadGeometry] <;>
      split_ifs <;> rfl
  have hcout : (main v env fuel).calls.filter isCout = (startup v env).filter isCout := by
    rw [hcalls]
    simp only [List.filter_append, hloopCout, hcleanCout, List.append_nil]
    have h1 : (createWindow env).filter isCout = [] := rfl
    have h2 : (loadGL env).filter isCout = [] := rfl
    rw [h1, h2]
    rfl
  have hlog : (main v env fuel).calls.filter isInfoLogQuery =
      (startup v env).filter isInfoLogQuery := by
    rw [hcalls]
    simp only [List.filter_append, hloopLog, hcleanLog, List.append_nil]
    have h1 : (createWindow env).filter isInfoLogQuery = [] := rfl
    have h2 : (loadGL env).filter isInfoLogQuery = [] := rfl
    rw [h1, h2]
    rfl
  refine ⟨?_, ?_, hcalls, ?_, ?_, ?_, hcout.trans hstartCout, hlog.trans hstartLog, ?_⟩
  · rw [hexit]; split_ifs <;> simp
  · rw [hexit]; split_ifs <;> simp
  · refine ⟨buildVertexShader v env ++ buildFragmentShader v env,
      (if env.linkStatus = 0 then
        [ .glGetProgramInfoLog env.shaderProgram 512 NULL env.programInfoLog,
          .cout ("ERROR::SHADER::PROGRAM::LINKING_FAILED\n" ++ env.programInfoLog) ]
       else []) ++ deleteShaders env ++ uploadGeometry v env, ?_⟩
    simp [startup, linkProgram]
  · intro k
    refine ⟨processInput env k ++
      [ .glClearColor (clearColor v).1 (clearColor v).2.1 (clearColor v).2.2.1
          (clearColor v).2.2.2, .glClear .GL_COLOR_BUFFER_BIT ],
      [ .glfwSwapBuffers env.window, .glfwPollEvents ], ?_⟩
    simp [loopBody, renderAndPresent]
  · intro hfuel h0
    obtain ⟨f, rfl⟩ : ∃ f, fuel = f + 1 := ⟨fuel - 1, by omega⟩
    rw [hcalls]
    refine ⟨createWindow env ++ loadGL env ++ startup v env ++
        [ .glfwWindowShouldClose env.window (env.glfwWindowShouldClose 0) ],
      (renderLoop v env f 1).1 ++
        (if (renderLoop v env (f + 1) 0).2 then cleanup v env else []), ?_⟩
    simp [renderLoop, h0]
  · intro hv hf hl
    rw [hcout.trans hstartCout]
    simp [hv, hf, hl]

/-- C4 at a concrete run: the fragment shader fails to compile and the link
fails; both are reported, and the frame of iteration 0 is still drawn with
the program. -/
theorem shader_failures_reported_not_fatal_witness :
    envFragmentFails.window ≠ NULL ∧ envFragmentFails.gladLoadGLLoader ≠ 0 ∧
    (main .TriangleShader envFragmentFails 2).exitCode ≠ some (-1) ∧
    List.IsInfix (loopBody .TriangleShader envFragmentFails 0)
      (main .TriangleShader envFragmentFails 2).calls ∧
    (main .TriangleShader envFragmentFails 2).calls.filter isInfoLogQuery =
      [ .glGetShaderInfoLog 2 512 NULL "0:5(4): error: undeclared identifier",
        .glGetProgramInfoLog 3 512 NULL "error: linking with uncompiled shader" ] :=
  have h := shader_failures_reported_not_fatal .TriangleShader envFragmentFails 2
    (by decide) (by decide)
  ⟨by decide, by decide, h.1, h.2.2.2.2.2.1 (by decide) rfl, h.2.2.2.2.2.2.2.1⟩

theorem usesShader_of_isDeleteShader (c : Call) (h : isDeleteShader c = true) :
    usesShader c = true := by
  cases c <;> first | rfl | cases h

/-! ## C7: the shader objects are deleted right after the link check -/

/-- C7.  In every variant, once the window exists and the loader succeeded,
and whatever the link status is, the run is: the set-up and the two shader
builds; the link block, which ends with the link-status query and, when the
status is 0, the log retrieval and its report; immediately after it
`glDeleteShader(vertexShader)` and `glDeleteShader(fragmentShader)`; then the
geometry upload, the Frame Loop and the cleanup.  No shader is deleted before
the link block ends, the two deletions are the only ones of the run, and no
call after them returns or takes a shader handle. -/
theorem shaders_deleted_once_after_link (v : Variant) (env : Env) (fuel : Nat)
    (hwin : env.window ≠ NULL) (hglad : env.gladLoadGLLoader ≠ 0) :
    (main v env fuel).calls =
      (createWindow env ++ loadGL env ++ buildVertexShader v env ++
        buildFragmentShader v env) ++
      ([ .glCreateProgram env.shaderProgram,
         .glAttachShader env.shaderProgram env.vertexShader,
         .glAttachShader env.shaderProgram env.fragmentShader,
         .glLinkProgram env.shaderProgram,
         .glGetProgramiv env.shaderProgram .GL_LINK_STATUS env.linkStatus ] ++
       (if env.linkStatus = 0 then
         [ .glGetProgramInfoLog env.shaderProgram 512 NULL env.programInfoLog,
           .cout ("ERROR::SHADER::PROGRAM::LINKING_FAILED\n" ++ env.programInfoLog) ]
        else [])) ++
      [ .glDeleteShader env.vertexShader, .glDeleteShader env.fragmentShader ] ++
      (uploadGeometry v env ++ (renderLoop v env fuel 0).1 ++
        (if (renderLoop v env fuel 0).2 then cleanup v env else [])) ∧
    (∀ c, c ∈ createWindow env ++ loadGL env ++ buildVertexShader v env ++
        buildFragmentShader v env ++ linkProgram env → isDeleteShader c = false) ∧
    (∀ c, c ∈ uploadGeometry v env ++ (renderLoop v env fuel 0).1 ++
        (if (renderLoop v env fuel 0).2 then cleanup v env else []) → usesShader c = false) ∧
    (main v env fuel).calls.filter isDeleteShader =
      [ .glDeleteShader env.vertexShader, .glDeleteShader env.fragmentShader ] := by
  obtain ⟨hcalls, _⟩ := main_started v env fuel hwin hglad
  have hshape : (main v env fuel).calls =
      (createWindow env ++ loadGL env ++ buildVertexShader v env ++
        buildFragmentShader v env) ++
      ([ .glCreateProgram env.shaderProgram,
         .glAttachShader env.shaderProgram env.vertexShader,
         .glAttachShader env.shaderProgram env.fragmentShader,
         .glLinkProgram env.shaderProgram,
         .glGetProgramiv env.shaderProgram .GL_LINK_STATUS env.linkStatus ] ++
       (if env.linkStatus = 0 then
         [ .glGetProgramInfoLog env.shaderProgram 512 NULL env.programInfoLog,
           .cout ("ERROR::SHADER::PROGRAM::LINKING_FAILED\n" ++ env.programInfoLog) ]
        else [])) ++
      [ .glDeleteShader env.vertexShader, .glDeleteShader env.fragmentShader ] ++
      (uploadGeometry v env ++ (renderLoop v env fuel 0).1 ++
        (if (renderLoop v env fuel 0).2 then cleanup v env else [])) := by
    rw [hcalls]
    simp only [startup, linkProgram, deleteShaders, List.append_assoc]
  have hpre : (createWindow env ++ loadGL env ++ buildVertexShader v env ++
      buildFragmentShader v env ++ linkProgram env).all (fun c => !isDeleteShader c) = true := by
    simp only [createWindow, loadGL, buildVertexShader, buildFragmentShader, linkProgram]
    split_ifs <;> rfl
  have hgeo : (uploadGeometry v env).all (fun c => !usesShader c) = true := by
    cases v <;> rfl
  have hclean : (cleanup v env).all (fun c => !usesShader c) = true := by
    cases v <;> rfl
  have hloop : ∀ c, c ∈ (renderLoop v env fuel 0).1 → usesShader c = false :=
    renderLoop_forall v env (fun c => usesShader c = false) (fun _ => rfl)
      (fun k c hc => by
        have hb : (loopBody v env k).all (fun c => !usesShader c) = true := by
          simp only [loopBody, processInput, renderAndPresent]
          split_ifs <;> rfl
        simpa using forall_mem_of_all _ _ hb c hc) fuel 0
  have hpost : ∀ c, c ∈ uploadGeometry v env ++ (renderLoop v env fuel 0).1 ++
      (if (renderLoop v env fuel 0).2 then cleanup v env else []) → usesShader c = false := by
    intro c hc
    simp only [List.mem_append] at hc
    rcases hc with (hc | hc) | hc
    · simpa using forall_mem_of_all _ _ hgeo c hc
    · exact hloop c hc
    · split_ifs at hc
      · simpa using forall_mem_of_all _ _ hclean c hc
      · simp at hc
  refine ⟨hshape, ?_, hpost, ?_⟩
  · intro c hc
    simpa using forall_mem_of_all _ _ hpre c hc
  · have hpre2 : (createWindow env ++ loadGL env ++ buildVertexShader v env ++
        buildFragmentShader v env ++ linkProgram env).filter isDeleteShader = [] := by
      rw [List.filter_eq_nil_iff]
      intro c hc
      have := forall_mem_of_all _ _ hpre c hc
      simpa using this
    have hpost2 : (uploadGeometry v env ++ (renderLoop v env fuel 0).1 ++
        (if (renderLoop v env fuel 0).2 then cleanup v env else [])).filter isDeleteShader
        = [] := by
      rw [List.filter_eq_nil_iff]
      intro c hc
      have hu := hpost c hc
      cases hd : isDeleteShader c with
      | false => simp
      | true => rw [usesShader_of_isDeleteShader c hd] at hu; cases hu
    have hsplit : (main v env fuel).calls =
        (createWindow env ++ loadGL env ++ buildVertexShader v env ++
          buildFragmentShader v env ++ linkProgram env) ++
        [ .glDeleteShader env.vertexShader, .glDeleteShader env.fragmentShader ] ++
        (uploadGeometry v env ++ (renderLoop v env fuel 0).1 ++
          (if (renderLoop v env fuel 0).2 then cleanup v env else [])) := by
      rw [hcalls]
      simp only [startup, deleteShaders, List.append_assoc]
    rw [hsplit, List.filter_append, List.filter_append, hpre2, hpost2]
    rfl

/-- C7 at a concrete run in which the link fails. -/
theorem shaders_deleted_once_after_link_witness :
    envFragmentFails.window ≠ NULL ∧ envFragmentFails.gladLoadGLLoader ≠ 0 ∧
    envFragmentFails.linkStatus = 0 ∧
    (main .DrawingTriangle envFragmentFails 2).calls.filter isDeleteShader =
      [ .glDeleteShader 1, .glDeleteShader 2 ] :=
  have h := shaders_deleted_once_after_link .DrawingTriangle envFragmentFails 2
    (by decide) (by decide)
  ⟨by decide, by decide, rfl, h.2.2.2⟩

/-! ## C10: the label of the fragment-stage diagnostic -/

/-- C10 does not hold of the code.  In the run where only the fragment shader
fails to compile, each variant retrieves the log of the fragment shader and
then writes it under the label `ERROR::SHADER::VERTEX::COMPILATION_FAILED`:
the diagnostic names the vertex stage although the fragment stage failed. -/
theorem fragment_failure_reported_as_vertex :
    envFragmentFails.vertexCompileStatus ≠ 0 ∧
    envFragmentFails.fragmentCompileStatus = 0 ∧
    buildFragmentShader .TriangleShader envFragmentFails =
      [ .glCreateShader .GL_FRAGMENT_SHADER 2,
        .glShaderSource 2 1 (fragmentShaderSource .TriangleShader) NULL,
        .glCompileShader 2,
        .glGetShaderiv 2 .GL_COMPILE_STATUS 0,
        .glGetShaderInfoLog 2 512 NULL "0:5(4): error: undeclared identifier",
        .cout "ERROR::SHADER::VERTEX::COMPILATION_FAILED\n0:5(4): error: undeclared identifier" ] ∧
    (buildFragmentShader .DrawingTriangle envFragmentFails).filter isCout =
      [ .cout "ERROR::SHADER::VERTEX::COMPILATION_FAILED\n0:5(4): error: undeclared identifier" ] ∧
    (buildFragmentShader .shaders_interpolation envFragmentFails).filter isCout =
      [ .cout "ERROR::SHADER::VERTEX::COMPILATION_FAILED\n0:5(4): error: undeclared identifier" ] ∧
    (main .TriangleShader envFragmentFails 2).calls.filter isCout =
      [ .cout "ERROR::SHADER::VERTEX::COMPILATION_FAILED\n0:5(4): error: undeclared identifier",
        .cout "ERROR::SHADER::PROGRAM::LINKING_FAILED\nerror: linking with uncompiled shader" ] := by
  refine ⟨by decide, rfl, ?_, ?_, ?_, ?_⟩
  · simp [buildFragmentShader, envFragmentFails]
  · decide
  · decide
  · decide

end OpenGLFiles
